import Mathlib

/-!
Verification of the response-normalization and rendering pipeline of a
Proxmox MCP server.  The definitions below are a shallow embedding of
`src/proxmox_mcp/tools/zfs.py` (the ZFS tool operations) and
`src/proxmox_mcp/formatting/templates.py` (the per-resource renderers).
Upstream API responses of unknown shape are modelled as explicit sum and
record types; the opaque client is modelled as a query function returning
`Except` (raising ↦ `Except.error`).  Machine floats used only for display
are modelled as rationals.
-/

/- ### Basic string machinery (faithful to Python string operations) -/

/-- Boolean prefix test on character lists (model of Python `str.startswith`
and of matching a literal at the start of a line). -/
def listIsPfxOf : List Char → List Char → Bool
  | [], _ => true
  | _ :: _, [] => false
  | a :: as, b :: bs => a == b && listIsPfxOf as bs

/-- Containment of `needle` in `hay` as a substring, model of Python `in`. -/
def containsSub (needle : List Char) : List Char → Bool
  | [] => listIsPfxOf needle []
  | h :: t => listIsPfxOf needle (h :: t) || containsSub needle t

/-- Python `needle in hay` on strings. -/
def strContains (hay needle : String) : Bool :=
  containsSub needle.data hay.data

/-- Line test: `p` is a literal prefix of `s`. -/
def hasPfx (p s : String) : Bool :=
  listIsPfxOf p.data s.data

/-- Split a character list at every occurrence of `c`, model of Python
`str.split(c)` (always returns at least one piece). -/
def splitCharAux (c : Char) : List Char → List Char → List (List Char)
  | [], acc => [acc.reverse]
  | h :: t, acc =>
    if h = c then acc.reverse :: splitCharAux c t [] else splitCharAux c t (h :: acc)

/-- Split a character list at every occurrence of `c`. -/
def splitChar (c : Char) (l : List Char) : List (List Char) :=
  splitCharAux c l []

/-- Last piece of a split, model of Python `s.split(c)[-1]`. -/
def lastSeg (c : Char) (s : String) : String :=
  String.mk ((splitChar c s.data).getLastD [])

/-- Python `str.upper`, character by character. -/
def upperStr (s : String) : String :=
  String.mk (s.data.map Char.toUpper)

/-- Python truthiness of `line.strip()`: true iff some character is not
whitespace. -/
def stripTruthy (l : List Char) : Bool :=
  l.any (fun ch => !ch.isWhitespace)

/- ### Display-number formatting (floats modelled as rationals) -/

/-- Round a rational to the nearest integer, half rounding up: the model of
the decimal rounding performed by Python float display formatting. -/
def qRound (q : ℚ) : ℤ :=
  (2 * q.num + (q.den : ℤ)).fdiv (2 * (q.den : ℤ))

/-- Display rounding of a percentage, model of Python `f"{x:.1f}"`:
one digit after the decimal point (non-negative display values). -/
def fmtPct (q : ℚ) : String :=
  let n : ℕ := (qRound (q * 10)).toNat
  toString (n / 10) ++ "." ++ toString (n % 10)

/-- Display rounding of a ratio, model of Python `f"{x:.2f}"`:
two digits after the decimal point (non-negative display values). -/
def fmt2 (q : ℚ) : String :=
  let n : ℕ := (qRound (q * 100)).toNat
  let frac : ℕ := n % 100
  let fracStr := if frac < 10 then "0" ++ toString frac else toString frac
  toString (n / 100) ++ "." ++ fracStr

/-- Guarded percentage, the idiom repeated at every renderer site:
`(part / whole * 100) if whole > 0 else 0`. -/
def percentOf (part whole : ℚ) : ℚ :=
  if 0 < whole then part / whole * 100 else 0

/- ### Modelled collaborators (modules not under src/) -/

/-- Modelled from the spec: `ProxmoxTheme.RESOURCES` (theme module is not in
scope); the spec only requires fixed per-resource icon glyphs. -/
def nodeIcon : String := "🖥"

/-- Modelled from the spec: vm resource icon. -/
def vmIcon : String := "🗍"

/-- Modelled from the spec: container resource icon. -/
def containerIcon : String := "📦"

/-- Modelled from the spec: storage resource icon. -/
def storageIcon : String := "💾"

/-- Modelled from the spec: zfs resource icon. -/
def zfsIcon : String := "🌊"

/-- Modelled from the spec: disk resource icon. -/
def diskIcon : String := "💽"

/-- Modelled from the spec: `ProxmoxFormatters.format_bytes` (formatters
module is not in scope); an injective human-readable byte-count rendering,
opaque to every claim checked here. -/
def format_bytes (n : ℤ) : String :=
  toString n ++ " B"

/-- Modelled from the spec: `ProxmoxFormatters.format_uptime` (formatters
module is not in scope); opaque to every claim checked here. -/
def format_uptime (n : ℤ) : String :=
  toString n ++ " s"

/- ### Data model for the ZFS pool detail query (zfs.py) -/

/-- Scan block of a pool detail response; `Option.none` stands for the empty
(falsy) dict `{}`. -/
structure ScanInfo where
  function : Option String
  state : Option String
deriving DecidableEq

/-- Second-level child device of a pool layout tree. -/
structure SubDev where
  name : Option String
  state : Option String
deriving DecidableEq

/-- Top-level child device (vdev) of a pool layout tree. -/
structure ChildDev where
  name : Option String
  state : Option String
  children : List SubDev
deriving DecidableEq

/-- Structured (dict-shaped) pool detail response; every field optional,
mirroring `pool_detail.get(...)` accesses. -/
structure PoolDetailDict where
  health : Option String
  state : Option String
  scan : Option ScanInfo
  action : Option String
  status : Option String
  errors : Option String
  children : Option (List ChildDev)
deriving DecidableEq

/-- The four shapes a raw pool-detail response can take: `none`, a raw text
blob, a structured dict, or any other value (carried as its Python type name
and `str(...)` rendering). -/
inductive RawResp where
  | noVal : RawResp
  | text (s : String) : RawResp
  | dict (d : PoolDetailDict) : RawResp
  | other (typeName : String) (rendered : String) : RawResp
deriving DecidableEq

/-- Canonical pool-detail record built by `get_zfs_pool_status`
(zfs.py lines 125-212); every field set in every branch. -/
structure PoolDetailResult where
  name : String
  node : String
  health : String
  state : String
  scan : Option ScanInfo
  action : Option String
  status : Option String
  errors : String
  children : List ChildDev
  raw_status : Option String
deriving DecidableEq

def onlineTok : String := "ONLINE"
def degradedTok : String := "DEGRADED"
def faultedTok : String := "FAULTED"
def unknownTok : String := "UNKNOWN"
def noDataStateTok : String := "API returned no data"
def noDataErrTok : String := "No data returned from API"
def seeRawTok : String := "See raw output"
def checkRawTok : String := "Check raw output"
def noKnownErrTok : String := "No known data errors"
def unexpectedStatePfx : String := "Unexpected type: "
def unexpectedErrPfx : String := "API returned unexpected type: "

/-- Health extraction from a raw text response, zfs.py lines 155-161:
independent substring tests for ONLINE, DEGRADED, FAULTED in that order. -/
def parseTextHealth (s : String) : String :=
  if strContains s onlineTok then onlineTok
  else if strContains s degradedTok then degradedTok
  else if strContains s faultedTok then faultedTok
  else unknownTok

/-- `ZFSTools.get_zfs_pool_status` (zfs.py lines 125-212): four-way shape
dispatch producing a complete `PoolDetailResult` for every input shape. -/
def get_zfs_pool_status (node pool_name : String) (pool_detail : RawResp) :
    PoolDetailResult :=
  match pool_detail with
  | RawResp.noVal =>
    { name := pool_name, node := node, health := unknownTok,
      state := noDataStateTok, scan := Option.none, action := Option.none,
      status := Option.none, errors := noDataErrTok, children := [],
      raw_status := Option.none }
  | RawResp.text s =>
    { name := pool_name, node := node, health := parseTextHealth s,
      state := seeRawTok, scan := Option.none, action := Option.none,
      status := Option.none, errors := checkRawTok, children := [],
      raw_status := some s }
  | RawResp.dict d =>
    { name := pool_name, node := node, health := d.health.getD unknownTok,
      state := d.state.getD unknownTok, scan := d.scan, action := d.action,
      status := d.status, errors := d.errors.getD noKnownErrTok,
      children := d.children.getD [], raw_status := Option.none }
  | RawResp.other typeName rendered =>
    { name := pool_name, node := node, health := unknownTok,
      state := unexpectedStatePfx ++ typeName, scan := Option.none,
      action := Option.none, status := Option.none,
      errors := unexpectedErrPfx ++ typeName, children := [],
      raw_status := some rendered }

/- ### Data model for the pool list sweep (zfs.py lines 64-102) -/

/-- Raw per-pool dict returned by the per-node ZFS query; every key
optional, mirroring `pool.get(...)`. -/
structure RawZfsPool where
  name : Option String
  health : Option String
  size : Option ℤ
  alloc : Option ℤ
  free : Option ℤ
  frag : Option ℤ
  dedup : Option ℚ
deriving DecidableEq

/-- Canonical pool record assembled by `list_zfs_pools` (zfs.py 80-89). -/
structure PoolData where
  name : String
  node : String
  health : String
  size : ℤ
  alloc : ℤ
  free : ℤ
  frag : ℤ
  dedup : ℚ
deriving DecidableEq

def unknownNameTok : String := "unknown"

/-- Field-defaulted normalization of one raw pool on one node
(zfs.py 80-89). -/
def normalizePool (node_name : String) (p : RawZfsPool) : PoolData :=
  { name := p.name.getD unknownNameTok, node := node_name,
    health := p.health.getD unknownTok, size := p.size.getD 0,
    alloc := p.alloc.getD 0, free := p.free.getD 0, frag := p.frag.getD 0,
    dedup := p.dedup.getD 1 }

/-- Warning text logged for a failed per-node pool query (zfs.py 93-97). -/
def poolWarnMsg (node_name err : String) : String :=
  "Could not query ZFS pools on node " ++ node_name ++ ": " ++ err

/-- `ZFSTools.list_zfs_pools` loop (zfs.py 73-98): iterate the node list; a
per-node query failure is logged as a warning and skipped.  The opaque
client is the function `q`; raising is `Except.error`.  Returns the pool
records together with the warning log. -/
def list_zfs_pools (nodes : List String)
    (q : String → Except String (List RawZfsPool)) :
    List PoolData × List String :=
  match nodes with
  | [] => ([], [])
  | n :: rest =>
    let acc := list_zfs_pools rest q
    match q n with
    | Except.ok pools => ((pools.map (normalizePool n)) ++ acc.1, acc.2)
    | Except.error e => (acc.1, poolWarnMsg n e :: acc.2)

/- ### Data model for the storage usage query (zfs.py lines 308-381) -/

/-- Raw volume entry from the content listing; every key optional. -/
structure RawVol where
  volid : Option String
  format : Option String
  size : Option ℤ
  vmid : Option ℤ
  content : Option String
  ctime : Option ℤ
deriving DecidableEq

/-- Canonical volume record (zfs.py 354-361). -/
structure Volume where
  volid : String
  format : String
  size : ℤ
  vmid : Option ℤ
  content : String
  ctime : Option ℤ
deriving DecidableEq

/-- Raw storage entry from the per-node storage list. -/
structure RawStore where
  storage : String
  type : Option String
deriving DecidableEq

/-- Raw storage status totals; every key optional. -/
structure StoreStatus where
  total : Option ℤ
  used : Option ℤ
  avail : Option ℤ
deriving DecidableEq

/-- Canonical storage-usage record (zfs.py 366-374). -/
structure StoreUsage where
  storage : String
  type : String
  total : ℤ
  used : ℤ
  available : ℤ
  volumes : List Volume
  volume_count : ℕ
deriving DecidableEq

/-- Field-defaulted normalization of one raw volume (zfs.py 354-361). -/
def normVol (v : RawVol) : Volume :=
  { volid := v.volid.getD unknownNameTok, format := v.format.getD unknownNameTok,
    size := v.size.getD 0, vmid := v.vmid, content := v.content.getD unknownNameTok,
    ctime := v.ctime }

/-- Sort volumes descending by size (zfs.py 364, Python stable sort with
`reverse=True`). -/
def sortVolsDesc (vs : List Volume) : List Volume :=
  vs.mergeSort (fun a b => decide (b.size ≤ a.size))

/-- Warning text logged when the content listing of one storage fails
(zfs.py 376). -/
def contentWarnMsg (store_name err : String) : String :=
  "Could not get content for " ++ store_name ++ ": " ++ err

/-- One iteration of the storage loop (zfs.py 338-377): the content
sub-query failing yields a warning and no record; the status sub-query
failing degrades total/used/avail to zero but still yields the record. -/
def store_step (contentQ : String → Except String (List RawVol))
    (statusQ : String → Except String StoreStatus) (store : RawStore) :
    Option StoreUsage × Option String :=
  match contentQ store.storage with
  | Except.error e => (Option.none, some (contentWarnMsg store.storage e))
  | Except.ok items =>
    let totals :=
      match statusQ store.storage with
      | Except.ok st => (st.total.getD 0, st.used.getD 0, st.avail.getD 0)
      | Except.error _ => ((0 : ℤ), (0 : ℤ), (0 : ℤ))
    let vols := sortVolsDesc (items.map normVol)
    (some { storage := store.storage, type := store.type.getD unknownNameTok,
            total := totals.1, used := totals.2.1, available := totals.2.2,
            volumes := vols, volume_count := vols.length }, Option.none)

/-- Python truthiness filter of zfs.py 333: skip a store iff a non-empty
storage filter is given and differs from the store's name. -/
def storeSkipped (filterName : Option String) (store : RawStore) : Bool :=
  match filterName with
  | Option.none => false
  | some f => decide (f ≠ "") && decide (store.storage ≠ f)

/-- `ZFSTools.get_storage_usage` loop (zfs.py 332-377); returns the usage
records together with the warning log. -/
def get_storage_usage (stores : List RawStore) (filterName : Option String)
    (contentQ : String → Except String (List RawVol))
    (statusQ : String → Except String StoreStatus) :
    List StoreUsage × List String :=
  match stores with
  | [] => ([], [])
  | st :: rest =>
    let acc := get_storage_usage rest filterName contentQ statusQ
    if storeSkipped filterName st then acc
    else
      match store_step contentQ statusQ st with
      | (some r, _) => (r :: acc.1, acc.2)
      | (Option.none, some w) => (acc.1, w :: acc.2)
      | (Option.none, Option.none) => acc

/- ### Data model for the renderer inputs (templates.py) -/

/-- Memory/disk sub-dict of node and instance records; `Option.none` stands
for the absent-or-empty (falsy) dict. -/
structure MemInfo where
  used : Option ℤ
  total : Option ℤ
deriving DecidableEq

/-- Node dict consumed by `node_list` (templates.py 25-55). -/
structure NodeData where
  node : String
  status : Option String
  uptime : Option ℤ
  maxcpu : Option ℤ
  memory : Option MemInfo
  disk : Option MemInfo
deriving DecidableEq

/-- VM or container dict consumed by `vm_list` / `container_list`. -/
structure VmData where
  name : String
  vmid : ℤ
  status : String
  node : String
  cpus : Option ℤ
  memory : Option MemInfo
deriving DecidableEq

/-- Storage dict consumed by `storage_list`. -/
structure StorageData where
  storage : String
  status : Option String
  type : String
  used : Option ℤ
  total : Option ℤ
deriving DecidableEq

/-- Dataset record consumed by `zfs_datasets` (built at zfs.py 248-255). -/
structure DatasetData where
  name : String
  type : String
  used : ℤ
  avail : ℤ
  mountpoint : String
deriving DecidableEq

/-- Disk record consumed by `disk_list` (built at zfs.py 290-301);
`wearout = Option.none` is the "N/A" sentinel. -/
structure DiskData where
  devpath : String
  size : ℤ
  serial : String
  type : String
  health : String
  model : String
  vendor : String
  rpm : ℤ
  wearout : Option ℤ
  used : String
deriving DecidableEq

/- ### Shared renderer pieces -/

def nl : String := "\n"
def naTok : String := "N/A"
def ssdTok : String := "ssd"

/-- Display of an optional integer with the "N/A" sentinel. -/
def optIntStr (o : Option ℤ) : String :=
  match o with
  | Option.none => naTok
  | some n => toString n

/-- ZFS health glyph (templates.py 232, 269, 295, 302). -/
def healthIcon (h : String) : String :=
  if h = onlineTok then "🟢" else if h = degradedTok then "🟡" else "🔴"

/-- Disk health glyph (templates.py 363): PASSED/OK green, UNKNOWN yellow,
anything else red. -/
def diskHealthIcon (h : String) : String :=
  if h = "PASSED" ∨ h = "OK" then "🟢" else if h = unknownTok then "🟡" else "🔴"

/-- Disk type glyph (templates.py 366). -/
def diskTypeIcon (t : String) : String :=
  if t = ssdTok then "⚡" else "💿"

def statusPfx : String := "  - Status: "
def uptimePfx : String := "  - Uptime: "
def cpuPfx : String := "  - CPU Cores: "
def memoryPfx : String := "  - Memory: "
def diskPfx : String := "  - Disk: "
def typePfx : String := "  - Type: "
def usagePfx : String := "  - Usage: "
def nodeLinePfx : String := "  - Node: "

/-- Usage fraction display `X / Y (P%)` shared by memory/disk/storage lines. -/
def usageFrac (used total : ℤ) : String :=
  format_bytes used ++ (" / " ++ (format_bytes total ++
    (" (" ++ (fmtPct (percentOf (used : ℚ) (total : ℚ)) ++ "%)"))))

/- ### ProxmoxTemplates.node_list (templates.py 13-57) -/

def nodesTitle : String := nodeIcon ++ " Proxmox Nodes"

def node_block (n : NodeData) : List String :=
  let status := n.status.getD unknownNameTok
  let mem := n.memory.getD { used := Option.none, total := Option.none }
  let base := ["", nodeIcon ++ (" " ++ n.node),
    statusPfx ++ upperStr status,
    uptimePfx ++ format_uptime (n.uptime.getD 0),
    cpuPfx ++ optIntStr n.maxcpu,
    memoryPfx ++ usageFrac (mem.used.getD 0) (mem.total.getD 0)]
  match n.disk with
  | Option.none => base
  | some d => base ++ [diskPfx ++ usageFrac (d.used.getD 0) (d.total.getD 0)]

def node_list (nodes : List NodeData) : String :=
  String.intercalate nl (nodesTitle :: nodes.flatMap node_block)

/- ### ProxmoxTemplates.vm_list (templates.py 97-125) -/

def vmsTitle : String := vmIcon ++ " Virtual Machines"

def vm_block (icon : String) (vm : VmData) : List String :=
  let mem := vm.memory.getD { used := Option.none, total := Option.none }
  ["", icon ++ (" " ++ (vm.name ++ (" (ID: " ++ (toString vm.vmid ++ ")")))),
   statusPfx ++ upperStr vm.status,
   nodeLinePfx ++ vm.node,
   cpuPfx ++ optIntStr vm.cpus,
   memoryPfx ++ usageFrac (mem.used.getD 0) (mem.total.getD 0)]

def vm_list (vms : List VmData) : String :=
  String.intercalate nl (vmsTitle :: vms.flatMap (vm_block vmIcon))

/- ### ProxmoxTemplates.storage_list (templates.py 127-153) -/

def storageTitle : String := storageIcon ++ " Storage Pools"

def storage_block (s : StorageData) : List String :=
  ["", storageIcon ++ (" " ++ s.storage),
   statusPfx ++ upperStr (s.status.getD unknownNameTok),
   typePfx ++ s.type,
   usagePfx ++ usageFrac (s.used.getD 0) (s.total.getD 0)]

def storage_list (storage : List StorageData) : String :=
  String.intercalate nl (storageTitle :: storage.flatMap storage_block)

/- ### ProxmoxTemplates.container_list (templates.py 155-186) -/

def noContainersTok : String := " No containers found"
def containersTitle : String := containerIcon ++ " Containers"

def container_list (containers : List VmData) : String :=
  match containers with
  | [] => containerIcon ++ noContainersTok
  | _ =>
    String.intercalate nl
      (containersTitle :: containers.flatMap (vm_block containerIcon))

/- ### ProxmoxTemplates.zfs_pool_list (templates.py 215-256) -/

def noPoolsTok : String := " No ZFS pools found"
def poolsTitle : String := zfsIcon ++ " ZFS Storage Pools"
def healthPfx : String := "  - Health: "
def sizePfx : String := "  - Size: "
def poolUsedPfx : String := "  - Used: "
def poolFreePfx : String := "  - Free: "
def fragPfx : String := "  - Fragmentation: "
def dedupPfx : String := "  - Dedup Ratio: "

/-- Dedup-ratio line (templates.py 254). -/
def dedupLine (d : ℚ) : String :=
  dedupPfx ++ (fmt2 d ++ "x")

def zfs_pool_block (p : PoolData) : List String :=
  let core := ["", zfsIcon ++ (" " ++ (p.name ++ (" (" ++ (p.node ++ ")")))),
    healthPfx ++ (healthIcon p.health ++ (" " ++ p.health)),
    sizePfx ++ format_bytes p.size,
    poolUsedPfx ++ (format_bytes p.alloc ++
      (" (" ++ (fmtPct (percentOf (p.alloc : ℚ) (p.size : ℚ)) ++ "%)"))),
    poolFreePfx ++ format_bytes p.free,
    fragPfx ++ (toString p.frag ++ "%")]
  if p.dedup ≠ 0 ∧ p.dedup ≠ 1 then core ++ [dedupLine p.dedup] else core

def zfs_pool_list (pools : List PoolData) : String :=
  match pools with
  | [] => zfsIcon ++ noPoolsTok
  | _ => String.intercalate nl (poolsTitle :: pools.flatMap zfs_pool_block)

/- ### ProxmoxTemplates.zfs_pool_detail (templates.py 258-314) -/

def zfsPoolTitlePfx : String := zfsIcon ++ " ZFS Pool: "
def statePfx : String := "  - State: "
def scanPfx : String := "  - Last Scan: "
def errorsPfx : String := "  - Errors: "
def layoutHdr : String := "  Disk Layout:"
def rawHdr : String := "  Raw Pool Status:"
def childPfx : String := "    - "
def subChildPfx : String := "      - "
def fourSp : String := "    "
def noneTok : String := "none"
def nlChar : Char := '\n'

def zdHdr (p : PoolDetailResult) : List String :=
  [zfsPoolTitlePfx ++ p.name,
   nodeLinePfx ++ p.node,
   healthPfx ++ (healthIcon p.health ++ (" " ++ p.health)),
   statePfx ++ p.state]

def zdScanPart (p : PoolDetailResult) : List String :=
  match p.scan with
  | Option.none => []
  | some si =>
    [scanPfx ++ (si.function.getD noneTok ++ (" - " ++ si.state.getD unknownNameTok))]

def subDevLine (s : SubDev) : String :=
  subChildPfx ++ (s.name.getD unknownNameTok ++ (": " ++
    (healthIcon (s.state.getD unknownTok) ++ (" " ++ s.state.getD unknownTok))))

def childDevLines (c : ChildDev) : List String :=
  (childPfx ++ (c.name.getD unknownNameTok ++ (": " ++
     (healthIcon (c.state.getD unknownTok) ++ (" " ++ c.state.getD unknownTok)))))
  :: c.children.map subDevLine

def zdChildrenPart (p : PoolDetailResult) : List String :=
  match p.children with
  | [] => []
  | _ => "" :: layoutHdr :: p.children.flatMap childDevLines

/-- Indented raw-text lines (templates.py 310-312): split at newlines, keep
lines whose strip is truthy, indent by four spaces. -/
def rawBody (s : String) : List String :=
  (splitChar nlChar s.data).filterMap
    (fun l => if stripTruthy l then some (fourSp ++ String.mk l) else Option.none)

def zdRawPart (p : PoolDetailResult) : List String :=
  match p.raw_status with
  | Option.none => []
  | some s => if s = "" then [] else "" :: rawHdr :: rawBody s

/-- Structured sections of the pool-detail rendering (templates.py 271-303):
header, optional scan line, errors line, optional disk layout. -/
def zdStructLines (p : PoolDetailResult) : List String :=
  zdHdr p ++ zdScanPart p ++ [errorsPfx ++ p.errors] ++ zdChildrenPart p

def zfs_pool_detail_lines (p : PoolDetailResult) : List String :=
  zdStructLines p ++ zdRawPart p

def zfs_pool_detail (p : PoolDetailResult) : String :=
  String.intercalate nl (zfs_pool_detail_lines p)

/- ### ProxmoxTemplates.zfs_datasets (templates.py 316-344) -/

def noDatasetsTok : String := " No ZFS datasets found"
def datasetsTitle : String := zfsIcon ++ " ZFS Datasets"

def dataset_block (ds : DatasetData) : List String :=
  ["", "  " ++ (storageIcon ++ (" " ++ ds.name)),
   "     - Type: " ++ ds.type,
   "     - Used: " ++ format_bytes ds.used,
   "     - Available: " ++ format_bytes ds.avail,
   "     - Mountpoint: " ++ ds.mountpoint]

def zfs_datasets (datasets : List DatasetData) : String :=
  match datasets with
  | [] => zfsIcon ++ noDatasetsTok
  | _ => String.intercalate nl (datasetsTitle :: datasets.flatMap dataset_block)

/- ### ProxmoxTemplates.disk_list (templates.py 346-386) -/

def noDisksTok : String := " No disks found"
def disksTitle : String := diskIcon ++ " Disks"
def dSizePfx : String := "     - Size: "
def dModelPfx : String := "     - Model: "
def dSerialPfx : String := "     - Serial: "
def dHealthPfx : String := "     - Health: "
def dUsagePfx : String := "     - Usage: "
def wearPfx : String := "     - Wear Level: "

/-- Wear-level line for one numeric wearout value (templates.py 384). -/
def wearLine (w : ℤ) : String :=
  wearPfx ++ (toString w ++ "%")

def disk_block (d : DiskData) : List String :=
  let core := ["", "  " ++ (diskTypeIcon d.type ++ (" " ++ d.devpath)),
    dSizePfx ++ format_bytes d.size,
    dModelPfx ++ d.model,
    dSerialPfx ++ d.serial,
    dHealthPfx ++ (diskHealthIcon d.health ++ (" " ++ d.health)),
    dUsagePfx ++ d.used]
  match d.wearout with
  | Option.none => core
  | some w => if d.type = ssdTok then core ++ [wearLine w] else core

def disk_list (disks : List DiskData) : String :=
  match disks with
  | [] => diskIcon ++ noDisksTok
  | _ => String.intercalate nl (disksTitle :: disks.flatMap disk_block)

/- ### ProxmoxTemplates.storage_usage (templates.py 388-441) -/

def noStorageTok : String := " No storage data found"
def storageUsageTitle : String := storageIcon ++ " Storage Usage Breakdown"
def totalPfx : String := "  Total: "
def suUsedPfx : String := "  Used: "
def availPfx : String := "  Available: "
def volumesPfx : String := "  Volumes: "
def topHdr : String := "  Top Space Consumers:"
def volLinePfx : String := "    - "
def elisionPfx : String := "    ... and "
def slashTok : String := "/"
def slashChar : Char := '/'
def colonChar : Char := ':'

/-- Volume display name (templates.py 431): last path segment if the volid
has a slash, else the part after the last colon. -/
def volName (volid : String) : String :=
  if strContains volid slashTok then lastSeg slashChar volid
  else lastSeg colonChar volid

/-- Python truthiness of `vmid` (templates.py 433): suffix only for a
present, non-zero vmid. -/
def vmidStr (o : Option ℤ) : String :=
  match o with
  | Option.none => ""
  | some n => if n = 0 then "" else " (VM " ++ (toString n ++ ")")

/-- One volume line (templates.py 434-436). -/
def volLine (v : Volume) : String :=
  volLinePfx ++ (volName v.volid ++ (vmidStr v.vmid ++ (": " ++
    (format_bytes v.size ++ (" [" ++ (v.content ++ "]"))))))

/-- Elision line for more than ten volumes (templates.py 439). -/
def elisionLine (n : ℕ) : String :=
  elisionPfx ++ (toString (n - 10) ++ " more volumes")

/-- Header lines of one storage block (templates.py 409-416). -/
def storeHdr (s : StoreUsage) : List String :=
  ["", storageIcon ++ (" " ++ (s.storage ++ (" (" ++ (s.type ++ ")")))),
   totalPfx ++ format_bytes s.total,
   suUsedPfx ++ (format_bytes s.used ++
     (" (" ++ (fmtPct (percentOf (s.used : ℚ) (s.total : ℚ)) ++ "%)"))),
   availPfx ++ format_bytes s.available,
   volumesPfx ++ toString s.volume_count]

def store_block (s : StoreUsage) : List String :=
  storeHdr s ++
    (match s.volumes with
     | [] => []
     | _ => "" :: topHdr :: ((s.volumes.take 10).map volLine ++
         (if 10 < s.volumes.length then [elisionLine s.volumes.length] else [])))

def storage_usage (storages : List StoreUsage) : String :=
  match storages with
  | [] => storageIcon ++ noStorageTok
  | _ => String.intercalate nl (storageUsageTitle :: storages.flatMap store_block)

/-- Modelled from the spec: the ShapeResolver contract of §4.3 written from
the spec's words — the complete pool-detail record each of the four input
shapes must yield (absent, raw text, structured record, unrecognized shape).
For the unrecognized shape the spec requires only that state and errors name
the unexpected shape; the code's message texts are used for those. -/
def specShapeResolver (node pool_name : String) (v : RawResp) : PoolDetailResult :=
  match v with
  | RawResp.noVal =>
    { name := pool_name, node := node, health := unknownTok,
      state := noDataStateTok, scan := Option.none, action := Option.none,
      status := Option.none, errors := noDataErrTok, children := [],
      raw_status := Option.none }
  | RawResp.text s =>
    { name := pool_name, node := node,
      health := if strContains s onlineTok then onlineTok
        else if strContains s degradedTok then degradedTok
        else if strContains s faultedTok then faultedTok
        else unknownTok,
      state := seeRawTok, scan := Option.none, action := Option.none,
      status := Option.none, errors := checkRawTok, children := [],
      raw_status := some s }
  | RawResp.dict d =>
    { name := pool_name, node := node, health := d.health.getD unknownTok,
      state := d.state.getD unknownTok, scan := d.scan, action := d.action,
      status := d.status, errors := d.errors.getD noKnownErrTok,
      children := d.children.getD [], raw_status := Option.none }
  | RawResp.other typeName rendered =>
    { name := pool_name, node := node, health := unknownTok,
      state := unexpectedStatePfx ++ typeName, scan := Option.none,
      action := Option.none, status := Option.none,
      errors := unexpectedErrPfx ++ typeName, children := [],
      raw_status := some rendered }

/-- The record produced for a storage whose content listing succeeded but
whose status sub-query raised: volumes intact (sorted normalized content),
totals degraded to zero (zfs.py 348-349, 366-374). -/
def degradedRecord (st : RawStore) (items : List RawVol) : StoreUsage :=
  let vols := sortVolsDesc (items.map normVol)
  { storage := st.storage, type := st.type.getD unknownNameTok, total := 0,
    used := 0, available := 0, volumes := vols, volume_count := vols.length }

/- ### Sample inputs used by witnesses -/

def sampleNode : String := "pve1"
def samplePool : String := "tank"
def failTok : String := "connection refused"
def c2SampleText : String := "state FAULTED then DEGRADED"

def sampleVol (sz : ℤ) : Volume :=
  { volid := "local:backup/vz.tar", format := "raw", size := sz,
    vmid := Option.none, content := "backup", ctime := Option.none }

def sampleVols : List Volume :=
  [sampleVol 120, sampleVol 110, sampleVol 100, sampleVol 90, sampleVol 80,
   sampleVol 70, sampleVol 60, sampleVol 50, sampleVol 40, sampleVol 30,
   sampleVol 20, sampleVol 10]

def sampleStoreBig : StoreUsage :=
  { storage := "local", type := "dir", total := 1000, used := 500,
    available := 500, volumes := sampleVols, volume_count := 12 }

def cePool : PoolData :=
  { name := "tank", node := "pve1", health := "ONLINE", size := 100,
    alloc := 10, free := 90, frag := 0, dedup := 0 }

def sampleRawStore : RawStore := { storage := "local-zfs", type := some "zfspool" }

def sampleRawVols : List RawVol :=
  [{ volid := some "local-zfs:vm-100-disk-0", format := some "raw",
     size := some 42, vmid := some 100, content := some "images",
     ctime := Option.none }]

def sampleDetail : PoolDetailResult :=
  get_zfs_pool_status sampleNode samplePool (RawResp.text c2SampleText)

def sampleHdd : DiskData :=
  { devpath := "/dev/sda", size := 500, serial := "SN123", type := "hdd",
    health := "PASSED", model := "WD Red", vendor := "WDC", rpm := 7200,
    wearout := some 5, used := "ZFS" }

/- ### String helper lemmas -/

theorem strData_append (a b : String) : (a ++ b).data = a.data ++ b.data := by
  cases a; cases b; rfl

theorem strAppend_assoc (a b c : String) : a ++ (b ++ c) = (a ++ b) ++ c :=
  String.ext (by rw [strData_append, strData_append, strData_append,
    strData_append, List.append_assoc])

theorem listIsPfxOf_refl (l : List Char) : listIsPfxOf l l = true := by
  induction l with
  | nil => rfl
  | cons a as ih => simp [listIsPfxOf, ih]

theorem listIsPfxOf_append_of {n f : List Char} (r : List Char)
    (h : listIsPfxOf n f = true) : listIsPfxOf n (f ++ r) = true := by
  induction n generalizing f with
  | nil => rfl
  | cons a as ih =>
    cases f with
    | nil => simp [listIsPfxOf] at h
    | cons b bs =>
      simp only [listIsPfxOf, Bool.and_eq_true, beq_iff_eq] at h
      simp only [List.cons_append, listIsPfxOf, Bool.and_eq_true, beq_iff_eq]
      exact ⟨h.1, ih h.2⟩

theorem listIsPfxOf_append_false :
    ∀ (i : ℕ) (n f : List Char), i < n.length → i < f.length →
      n[i]? ≠ f[i]? → ∀ r, listIsPfxOf n (f ++ r) = false := by
  intro i
  induction i with
  | zero =>
    intro n f hn hf hne r
    cases n with
    | nil => simp at hn
    | cons a as =>
      cases f with
      | nil => simp at hf
      | cons b bs =>
        have hab : a ≠ b := by simpa using hne
        simp [listIsPfxOf, hab]
  | succ i ih =>
    intro n f hn hf hne r
    cases n with
    | nil => simp at hn
    | cons a as =>
      cases f with
      | nil => simp at hf
      | cons b bs =>
        have has : i < as.length := by simpa using hn
        have hbs : i < bs.length := by simpa using hf
        have hne' : as[i]? ≠ bs[i]? := by simpa using hne
        simp [listIsPfxOf, ih as bs has hbs hne' r]

theorem hasPfx_self (p r : String) : hasPfx p (p ++ r) = true := by
  unfold hasPfx
  rw [strData_append]
  exact listIsPfxOf_append_of _ (listIsPfxOf_refl _)

theorem hasPfx_mismatch (n f r : String) (i : ℕ) (hn : i < n.data.length)
    (hf : i < f.data.length) (hne : n.data[i]? ≠ f.data[i]?) :
    hasPfx n (f ++ r) = false := by
  unfold hasPfx
  rw [strData_append]
  exact listIsPfxOf_append_false i _ _ hn hf hne _

theorem strNe_mismatch (f₁ r₁ f₂ r₂ : String) (i : ℕ)
    (h1 : i < f₁.data.length) (h2 : i < f₂.data.length)
    (hne : f₁.data[i]? ≠ f₂.data[i]?) : f₁ ++ r₁ ≠ f₂ ++ r₂ := by
  intro h
  have hd := congrArg String.data h
  rw [strData_append, strData_append] at hd
  have e1 : (f₁.data ++ r₁.data)[i]? = f₁.data[i]? := List.getElem?_append_left h1
  have e2 : (f₂.data ++ r₂.data)[i]? = f₂.data[i]? := List.getElem?_append_left h2
  rw [hd] at e1
  exact hne (e1.symm.trans e2)

theorem strNe_lit (f r lit : String) (i : ℕ) (h1 : i < f.data.length)
    (hne : f.data[i]? ≠ lit.data[i]?) : f ++ r ≠ lit := by
  intro h
  have hd := congrArg String.data h
  rw [strData_append] at hd
  have e1 : (f.data ++ r.data)[i]? = f.data[i]? := List.getElem?_append_left h1
  rw [hd] at e1
  exact hne e1.symm

/- ### C1 -/

/-- C1: for every raw response shape (absent, text, dict, other) the
single-pool detail operation produces a pool-detail record with every field
set to the documented per-branch default, and the shape dispatch is total
(it is a Lean function on all of `RawResp`): the code agrees with the
spec-side resolver on every input. -/
theorem c1_shape_dispatch_total (node pool : String) (v : RawResp) :
    get_zfs_pool_status node pool v = specShapeResolver node pool v ∧
    (get_zfs_pool_status node pool v).name = pool ∧
    (get_zfs_pool_status node pool v).node = node := by
  cases v <;> exact ⟨rfl, rfl, rfl⟩

/- ### C2 -/

/-- C2: for a string-shaped pool-detail response, health is assigned by
testing the literal substrings ONLINE, DEGRADED, FAULTED in that fixed
priority order, first-listed match wins, and no token yields UNKNOWN. -/
theorem c2_text_health_priority (node pool s : String) :
    (strContains s onlineTok = true →
      (get_zfs_pool_status node pool (RawResp.text s)).health = onlineTok) ∧
    (strContains s onlineTok = false → strContains s degradedTok = true →
      (get_zfs_pool_status node pool (RawResp.text s)).health = degradedTok) ∧
    (strContains s onlineTok = false → strContains s degradedTok = false →
      strContains s faultedTok = true →
      (get_zfs_pool_status node pool (RawResp.text s)).health = faultedTok) ∧
    (strContains s onlineTok = false → strContains s degradedTok = false →
      strContains s faultedTok = false →
      (get_zfs_pool_status node pool (RawResp.text s)).health = unknownTok) := by
  refine ⟨?_, ?_, ?_, ?_⟩ <;> intros <;>
    simp_all [get_zfs_pool_status, parseTextHealth]

/-- C2 witness: a text containing both FAULTED and DEGRADED but not ONLINE
yields DEGRADED. -/
theorem c2_text_health_priority_w :
    strContains c2SampleText faultedTok = true ∧
    (get_zfs_pool_status sampleNode samplePool (RawResp.text c2SampleText)).health
      = degradedTok :=
  ⟨by decide,
   (c2_text_health_priority sampleNode samplePool c2SampleText).2.1
     (by decide) (by decide)⟩

/- ### C3 -/

/-- C3 counterexample: the claim says the storage-usage renderer does not
special-case emptiness and returns just the title line; in fact on an empty
input it returns the one-line "No storage data found" message, which is not
the title line. -/
theorem c3_empty_rendering_ce :
    storage_usage [] = storageIcon ++ noStorageTok ∧
    storage_usage [] ≠ storageUsageTitle := by
  refine ⟨rfl, ?_⟩
  decide

/-- C3 amended: on empty input the container, disk, redundant-pool-list,
dataset AND storage-usage renderers return exactly a one-line "none found"
message carrying the resource icon, while the node, VM and storage-pool
renderers return just the title line with no item blocks. -/
theorem c3_empty_rendering :
    container_list [] = containerIcon ++ noContainersTok ∧
    disk_list [] = diskIcon ++ noDisksTok ∧
    zfs_pool_list [] = zfsIcon ++ noPoolsTok ∧
    zfs_datasets [] = zfsIcon ++ noDatasetsTok ∧
    storage_usage [] = storageIcon ++ noStorageTok ∧
    node_list [] = nodesTitle ∧
    vm_list [] = vmsTitle ∧
    storage_list [] = storageTitle :=
  ⟨rfl, rfl, rfl, rfl, rfl, rfl, rfl, rfl⟩

/- ### C4 -/

/-- C4: for every node list and per-node query outcome, the multi-node pool
sweep returns exactly the normalized pool records of the succeeding nodes in
order (failing nodes contribute nothing), and logs one warning naming each
failing node and its error; the sweep itself is total, so no per-node
exception propagates. -/
theorem c4_sweep_partial_failure (nodes : List String)
    (q : String → Except String (List RawZfsPool)) :
    (list_zfs_pools nodes q).1 = nodes.flatMap (fun n =>
      match q n with
      | Except.ok ps => ps.map (normalizePool n)
      | Except.error _ => []) ∧
    (list_zfs_pools nodes q).2 = nodes.filterMap (fun n =>
      match q n with
      | Except.ok _ => Option.none
      | Except.error e => some (poolWarnMsg n e)) := by
  induction nodes with
  | nil => exact ⟨rfl, rfl⟩
  | cons n rest ih =>
    refine ⟨?_, ?_⟩ <;> cases hq : q n <;>
      simp [list_zfs_pools, hq, ih.1, ih.2]

/- ### C5 -/

/-- C5: for every (part, whole) pair at a renderer percentage site, a
non-positive whole yields exactly 0 with no division (displayed "0.0"), and
a positive whole displays part/whole*100 rounded to one decimal place. -/
theorem c5_percentage_guard (part whole : ℚ) :
    (whole ≤ 0 → percentOf part whole = 0 ∧
      fmtPct (percentOf part whole) = "0.0") ∧
    (0 < whole → percentOf part whole = part / whole * 100 ∧
      fmtPct (percentOf part whole) = fmtPct (part / whole * 100)) := by
  constructor
  · intro h
    have hlt : ¬ 0 < whole := not_lt.mpr h
    have h0 : percentOf part whole = 0 := by simp [percentOf, hlt]
    refine ⟨h0, ?_⟩
    rw [h0]
    have h : (0 : ℚ) * 10 = ((0 : ℕ) : ℚ) := by norm_num
    unfold fmtPct
    rw [h, qRound, Rat.num_natCast, Rat.den_natCast]
    decide
  · intro h
    have h1 : percentOf part whole = part / whole * 100 := by simp [percentOf, h]
    exact ⟨h1, by rw [h1]⟩

/-- C5 witness: at (part, whole) = (30, 0) the percentage is 0 and displays
"0.0"; at (30, 40) the display equals the rounded formula. -/
theorem c5_percentage_guard_w :
    (percentOf 30 0 = 0 ∧ fmtPct (percentOf 30 0) = "0.0") ∧
    fmtPct (percentOf 30 40) = fmtPct ((30 : ℚ) / 40 * 100) :=
  ⟨(c5_percentage_guard 30 0).1 (by norm_num),
   ((c5_percentage_guard 30 40).2 (by norm_num)).2⟩

/- ### C6 -/

/-- C6: for a storage-usage record whose volume count equals its collection
length (as the normalizer guarantees), the renderer lists exactly the first
ten volumes when more than ten exist, appends exactly one elision line
stating how many were elided, renders the "Volumes:" count as the full
length, and — when the list is sorted descending by size — the ten rendered
volumes are all at least as large as every elided one. -/
theorem c6_volume_cap (s : StoreUsage) (hc : s.volume_count = s.volumes.length) :
    (10 < s.volumes.length →
      store_block s = storeHdr s ++ ("" :: topHdr ::
        ((s.volumes.take 10).map volLine ++ [elisionLine s.volumes.length])) ∧
      ((s.volumes.take 10).map volLine).length = 10 ∧
      elisionLine s.volumes.length =
        elisionPfx ++ (toString (s.volumes.length - 10) ++ " more volumes")) ∧
    (s.volumes.length ≤ 10 →
      store_block s = storeHdr s ++
        (match s.volumes with
         | [] => []
         | _ :: _ => "" :: topHdr :: (s.volumes.map volLine))) ∧
    (volumesPfx ++ toString s.volumes.length) ∈ storeHdr s ∧
    (List.Pairwise (fun a b : Volume => b.size ≤ a.size) s.volumes →
      ∀ v ∈ s.volumes.take 10, ∀ w ∈ s.volumes.drop 10, w.size ≤ v.size) := by
  refine ⟨?_, ?_, ?_, ?_⟩
  · intro h10
    refine ⟨?_, ?_, rfl⟩
    · cases hvol : s.volumes with
      | nil => rw [hvol] at h10; simp at h10
      | cons a as =>
        rw [hvol] at h10
        simp only [store_block, hvol, h10, if_true]
    · rw [List.length_map, List.length_take]
      exact Nat.min_eq_left (Nat.le_of_lt h10)
  · intro hle
    have hfalse : ¬ 10 < s.volumes.length := Nat.not_lt.mpr hle
    have htake : s.volumes.take 10 = s.volumes := List.take_of_length_le hle
    cases hvol : s.volumes with
    | nil => simp [store_block, hvol]
    | cons a as =>
      rw [hvol] at hfalse htake
      simp only [store_block, hvol, htake, hfalse, if_false, List.append_nil]
  · simp [storeHdr, hc]
  · intro hp v hv w hw
    have hsplit := List.take_append_drop 10 s.volumes
    rw [← hsplit] at hp
    rw [List.pairwise_append] at hp
    exact hp.2.2 v hv w hw

/-- C6 witness: a store with twelve volumes renders the first ten plus the
elision line. -/
theorem c6_volume_cap_w :
    store_block sampleStoreBig = storeHdr sampleStoreBig ++ ("" :: topHdr ::
      ((sampleStoreBig.volumes.take 10).map volLine ++
        [elisionLine sampleStoreBig.volumes.length])) :=
  ((c6_volume_cap sampleStoreBig (by decide)).1 (by decide)).1

/- ### C7 -/

/-- C7 counterexample: a pool record whose dedup ratio is 0 differs from 1.0,
yet its rendered block contains no dedup-ratio line — the code's guard
`dedup and dedup != 1.0` is false for the falsy value 0, so the claim "the
line is present exactly when dedup differs from 1.0" fails at dedup = 0. -/
theorem c7_dedup_line_ce :
    cePool.dedup ≠ 1 ∧
    (zfs_pool_block cePool).filter (fun l => hasPfx dedupPfx l) = [] := by
  constructor
  · show (0 : ℚ) ≠ 1
    norm_num
  · have hz : ∀ r, hasPfx dedupPfx (zfsIcon ++ r) = false := fun r =>
      hasPfx_mismatch dedupPfx zfsIcon r 0 (by decide) (by decide) (by decide)
    have hh : ∀ r, hasPfx dedupPfx (healthPfx ++ r) = false := fun r =>
      hasPfx_mismatch dedupPfx healthPfx r 4 (by decide) (by decide) (by decide)
    have hsz : ∀ r, hasPfx dedupPfx (sizePfx ++ r) = false := fun r =>
      hasPfx_mismatch dedupPfx sizePfx r 4 (by decide) (by decide) (by decide)
    have hus : ∀ r, hasPfx dedupPfx (poolUsedPfx ++ r) = false := fun r =>
      hasPfx_mismatch dedupPfx poolUsedPfx r 4 (by decide) (by decide) (by decide)
    have hfr : ∀ r, hasPfx dedupPfx (poolFreePfx ++ r) = false := fun r =>
      hasPfx_mismatch dedupPfx poolFreePfx r 4 (by decide) (by decide) (by decide)
    have hfg : ∀ r, hasPfx dedupPfx (fragPfx ++ r) = false := fun r =>
      hasPfx_mismatch dedupPfx fragPfx r 4 (by decide) (by decide) (by decide)
    have hem : hasPfx dedupPfx "" = false := by decide
    have hcond : ¬ (cePool.dedup ≠ 0 ∧ cePool.dedup ≠ 1) := by
      intro h
      exact h.1 rfl
    simp only [zfs_pool_block, if_neg hcond]
    simp [List.filter, hz, hh, hsz, hus, hfr, hfg, hem]

/-- C7 amended: the dedup-ratio line is present exactly when the dedup value
is truthy (non-zero) AND differs from 1.0 — a falsy dedup of 0 also
suppresses the line; when present it is the two-decimal rendering followed
by "x", e.g. 27/20 renders as "1.35" + "x". -/
theorem c7_dedup_line (p : PoolData) :
    (zfs_pool_block p).filter (fun l => hasPfx dedupPfx l) =
      (if p.dedup ≠ 0 ∧ p.dedup ≠ 1 then [dedupLine p.dedup] else []) ∧
    dedupLine ((27 : ℚ)/20) = dedupPfx ++ ("1.35" ++ "x") := by
  have hz : ∀ r, hasPfx dedupPfx (zfsIcon ++ r) = false := fun r =>
    hasPfx_mismatch dedupPfx zfsIcon r 0 (by decide) (by decide) (by decide)
  have hh : ∀ r, hasPfx dedupPfx (healthPfx ++ r) = false := fun r =>
    hasPfx_mismatch dedupPfx healthPfx r 4 (by decide) (by decide) (by decide)
  have hsz : ∀ r, hasPfx dedupPfx (sizePfx ++ r) = false := fun r =>
    hasPfx_mismatch dedupPfx sizePfx r 4 (by decide) (by decide) (by decide)
  have hus : ∀ r, hasPfx dedupPfx (poolUsedPfx ++ r) = false := fun r =>
    hasPfx_mismatch dedupPfx poolUsedPfx r 4 (by decide) (by decide) (by decide)
  have hfr : ∀ r, hasPfx dedupPfx (poolFreePfx ++ r) = false := fun r =>
    hasPfx_mismatch dedupPfx poolFreePfx r 4 (by decide) (by decide) (by decide)
  have hfg : ∀ r, hasPfx dedupPfx (fragPfx ++ r) = false := fun r =>
    hasPfx_mismatch dedupPfx fragPfx r 4 (by decide) (by decide) (by decide)
  have hem : hasPfx dedupPfx "" = false := by decide
  have hsl : ∀ r, hasPfx dedupPfx (dedupPfx ++ r) = true := fun r =>
    hasPfx_self dedupPfx r
  constructor
  · by_cases hd : p.dedup ≠ 0 ∧ p.dedup ≠ 1
    · simp only [zfs_pool_block, if_pos hd, dedupLine]
      simp [List.filter_append, List.filter, hz, hh, hsz, hus, hfr, hfg, hem, hsl]
    · simp only [zfs_pool_block, if_neg hd]
      simp [List.filter, hz, hh, hsz, hus, hfr, hfg, hem]
  · have h135 : ((27 : ℚ)/20) * 100 = ((135 : ℕ) : ℚ) := by norm_num
    show dedupPfx ++ (fmt2 ((27 : ℚ)/20) ++ "x") = dedupPfx ++ ("1.35" ++ "x")
    have : fmt2 ((27 : ℚ)/20) = "1.35" := by
      unfold fmt2
      rw [h135, qRound, Rat.num_natCast, Rat.den_natCast]
      decide
    rw [this]

/- ### C8 -/

/-- C8: for every storage in the sweep whose content sub-query succeeds and
whose status-totals sub-query raises, the result still contains that
storage's record with its volume list intact and total/used/available
degraded to 0 — the sub-query failure fails neither the item nor the
operation (which is a total function). -/
theorem c8_status_subquery_degrades (stores : List RawStore)
    (filterName : Option String)
    (contentQ : String → Except String (List RawVol))
    (statusQ : String → Except String StoreStatus)
    (st : RawStore) (items : List RawVol) (e : String)
    (hmem : st ∈ stores)
    (hfil : filterName = Option.none ∨ filterName = some st.storage)
    (hc : contentQ st.storage = Except.ok items)
    (hs : statusQ st.storage = Except.error e) :
    degradedRecord st items ∈
      (get_storage_usage stores filterName contentQ statusQ).1 := by
  induction stores with
  | nil => cases hmem
  | cons a rest ih =>
    rcases List.mem_cons.mp hmem with heq | hmem'
    · subst heq
      have hskip : storeSkipped filterName st = false := by
        rcases hfil with hf | hf <;> subst hf <;> simp [storeSkipped]
      have hstep : store_step contentQ statusQ st =
          (some (degradedRecord st items), Option.none) := by
        simp [store_step, hc, hs, degradedRecord]
      simp only [get_storage_usage, hskip, Bool.false_eq_true, if_false, hstep]
      exact List.mem_cons_self _ _
    · have hrec := ih hmem'
      simp only [get_storage_usage]
      by_cases hsk : storeSkipped filterName a = true
      · simp only [hsk, if_true]
        exact hrec
      · simp only [Bool.not_eq_true] at hsk
        simp only [hsk, Bool.false_eq_true, if_false]
        rcases hstep : store_step contentQ statusQ a with ⟨o, w⟩
        cases o with
        | some r => exact List.mem_cons_of_mem _ hrec
        | none => cases w with
          | some wmsg => exact hrec
          | none => exact hrec

/-- C8 witness: one storage, content listing succeeds, status query raises;
the degraded record with intact volumes is in the result. -/
theorem c8_status_subquery_degrades_w :
    degradedRecord sampleRawStore sampleRawVols ∈
      (get_storage_usage [sampleRawStore] Option.none
        (fun _ => Except.ok sampleRawVols)
        (fun _ => Except.error failTok)).1 :=
  c8_status_subquery_degrades [sampleRawStore] Option.none
    (fun _ => Except.ok sampleRawVols) (fun _ => Except.error failTok)
    sampleRawStore sampleRawVols failTok (List.mem_singleton.mpr rfl)
    (Or.inl rfl) rfl rfl

/- ### C9 -/

theorem rawHdr_notin_child (c : ChildDev) : rawHdr ∉ childDevLines c := by
  intro h
  rcases List.mem_cons.mp h with h1 | h2
  · exact strNe_lit childPfx _ rawHdr 2 (by decide) (by decide) h1.symm
  · rcases List.mem_map.mp h2 with ⟨sd, _, hsd⟩
    simp only [subDevLine] at hsd
    exact strNe_lit subChildPfx _ rawHdr 2 (by decide) (by decide) hsd

theorem rawHdr_notin_struct (p : PoolDetailResult) : rawHdr ∉ zdStructLines p := by
  intro h
  simp only [zdStructLines, List.append_assoc, List.mem_append] at h
  rcases h with h | h | h | h
  · simp only [zdHdr, List.mem_cons, List.not_mem_nil, or_false] at h
    rcases h with h | h | h | h
    · exact strNe_lit zfsPoolTitlePfx _ rawHdr 0 (by decide) (by decide) h.symm
    · exact strNe_lit nodeLinePfx _ rawHdr 2 (by decide) (by decide) h.symm
    · exact strNe_lit healthPfx _ rawHdr 2 (by decide) (by decide) h.symm
    · exact strNe_lit statePfx _ rawHdr 2 (by decide) (by decide) h.symm
  · cases hscan : p.scan with
    | none => rw [zdScanPart, hscan] at h; cases h
    | some si =>
      rw [zdScanPart, hscan] at h
      rcases List.mem_cons.mp h with h1 | h1
      · exact strNe_lit scanPfx _ rawHdr 2 (by decide) (by decide) h1.symm
      · cases h1
  · rcases List.mem_cons.mp h with h1 | h1
    · exact strNe_lit errorsPfx _ rawHdr 2 (by decide) (by decide) h1.symm
    · cases h1
  · cases hch : p.children with
    | nil => rw [zdChildrenPart, hch] at h; cases h
    | cons c cs =>
      rw [zdChildrenPart, hch] at h
      rcases List.mem_cons.mp h with h1 | h1
      · exact absurd h1 (by decide)
      · rcases List.mem_cons.mp h1 with h2 | h2
        · exact absurd h2 (by decide)
        · rw [← hch] at h2
          rcases List.mem_flatMap.mp h2 with ⟨cd, _, hcd⟩
          exact rawHdr_notin_child cd hcd

/-- C9: the detail renderer appends the indented raw-text fallback section
after all structured sections (header, scan, errors, disk layout) exactly
when the raw-fallback payload is populated (present and non-empty); an
unpopulated payload yields no such section anywhere in the output. -/
theorem c9_raw_fallback_section (p : PoolDetailResult) :
    (∀ s, p.raw_status = some s → s ≠ "" →
      zfs_pool_detail_lines p = zdStructLines p ++ ("" :: rawHdr :: rawBody s) ∧
      rawHdr ∉ zdStructLines p ∧
      (rawBody s).all (fun l => hasPfx fourSp l) = true) ∧
    (p.raw_status = Option.none ∨ p.raw_status = some "" →
      zfs_pool_detail_lines p = zdStructLines p ∧
      rawHdr ∉ zfs_pool_detail_lines p) := by
  constructor
  · intro s hs hne
    refine ⟨?_, rawHdr_notin_struct p, ?_⟩
    · simp [zfs_pool_detail_lines, zdRawPart, hs, hne]
    · rw [List.all_eq_true]
      intro x hx
      rcases List.mem_filterMap.mp hx with ⟨l, _, hl⟩
      by_cases ht : stripTruthy l = true
      · rw [if_pos ht] at hl
        rw [← Option.some.inj hl]
        exact hasPfx_self fourSp (String.mk l)
      · rw [if_neg ht] at hl
        cases hl
  · intro hcase
    have hraw : zdRawPart p = [] := by
      rcases hcase with h | h <;> simp [zdRawPart, h]
    refine ⟨?_, ?_⟩
    · simp [zfs_pool_detail_lines, hraw]
    · rw [zfs_pool_detail_lines, hraw, List.append_nil]
      exact rawHdr_notin_struct p

/-- C9 witness: a text-shaped response yields a record whose rendering ends
with the raw-text fallback section. -/
theorem c9_raw_fallback_section_w :
    zfs_pool_detail_lines sampleDetail =
      zdStructLines sampleDetail ++ ("" :: rawHdr :: rawBody c2SampleText) :=
  ((c9_raw_fallback_section sampleDetail).1 c2SampleText rfl (by decide)).1

/- ### C10 -/

/-- C10: the "Wear Level" line is emitted if and only if the disk's type is
exactly "ssd" and its wearout value is not the "N/A" sentinel; in particular
a non-ssd disk never shows the line even with a numeric wearout present. -/
theorem c10_wear_level_guard (d : DiskData) :
    (disk_block d).filter (fun l => hasPfx wearPfx l) =
      (match d.wearout with
       | Option.none => []
       | some w => if d.type = ssdTok then [wearLine w] else []) ∧
    (d.type ≠ ssdTok →
      (disk_block d).filter (fun l => hasPfx wearPfx l) = []) := by
  have hem : hasPfx wearPfx "" = false := by decide
  have hdev : ∀ t r, hasPfx wearPfx ("  " ++ (diskTypeIcon t ++ r)) = false := by
    intro t r
    rw [strAppend_assoc]
    by_cases hssd : t = ssdTok
    · simp only [diskTypeIcon, hssd, if_pos]
      exact hasPfx_mismatch wearPfx _ r 2 (by decide) (by decide) (by decide)
    · simp only [diskTypeIcon, hssd, if_false]
      exact hasPfx_mismatch wearPfx _ r 2 (by decide) (by decide) (by decide)
  have hs : ∀ r, hasPfx wearPfx (dSizePfx ++ r) = false := fun r =>
    hasPfx_mismatch wearPfx dSizePfx r 7 (by decide) (by decide) (by decide)
  have hm : ∀ r, hasPfx wearPfx (dModelPfx ++ r) = false := fun r =>
    hasPfx_mismatch wearPfx dModelPfx r 7 (by decide) (by decide) (by decide)
  have hse : ∀ r, hasPfx wearPfx (dSerialPfx ++ r) = false := fun r =>
    hasPfx_mismatch wearPfx dSerialPfx r 7 (by decide) (by decide) (by decide)
  have hhe : ∀ r, hasPfx wearPfx (dHealthPfx ++ r) = false := fun r =>
    hasPfx_mismatch wearPfx dHealthPfx r 7 (by decide) (by decide) (by decide)
  have hu : ∀ r, hasPfx wearPfx (dUsagePfx ++ r) = false := fun r =>
    hasPfx_mismatch wearPfx dUsagePfx r 7 (by decide) (by decide) (by decide)
  have hw : ∀ r, hasPfx wearPfx (wearPfx ++ r) = true := fun r =>
    hasPfx_self wearPfx r
  have hmain : (disk_block d).filter (fun l => hasPfx wearPfx l) =
      (match d.wearout with
       | Option.none => []
       | some w => if d.type = ssdTok then [wearLine w] else []) := by
    cases hwo : d.wearout with
    | none =>
      simp only [disk_block, hwo]
      simp [List.filter, hem, hdev, hs, hm, hse, hhe, hu]
    | some w =>
      by_cases hssd : d.type = ssdTok
      · simp only [disk_block, hwo, hssd, if_pos, wearLine]
        simp [List.filter_append, List.filter, hem, hdev, hs, hm, hse, hhe, hu, hw,
          wearLine]
      · simp only [disk_block, hwo, hssd, if_false]
        simp [List.filter, hem, hdev, hs, hm, hse, hhe, hu, hssd]
  refine ⟨hmain, ?_⟩
  intro hne
  rw [hmain]
  cases d.wearout with
  | none => rfl
  | some w => simp [hne]

/-- C10 witness: a rotational disk with a numeric wearout value renders no
wear-level line. -/
theorem c10_wear_level_guard_w :
    (disk_block sampleHdd).filter (fun l => hasPfx wearPfx l) = [] :=
  (c10_wear_level_guard sampleHdd).2 (by decide)
